import Mathlib

/-!
Verification of the gobuster invocation layer of the Network_Agent repository.

We give a shallow embedding of `run_gobuster_auto` from `src/mcp_server.py`
(namespace `McpServer`) and of its near-duplicate from `src/Learnings/tool.py`
(namespace `LearningsTool`), together with the inner `_run` output filter and
the command builder.  External effects are made explicit:

* the filesystem and PATH lookup are an environment record `Env`
  (`gobusterOnPath` models `shutil.which("gobuster") is not None`;
  `isFile w` models `Path(w).exists() and Path(w).is_file()`);
* the external binary is a function `proc : List String → ProcOut` giving, per
  argument vector, the exit code and the combined stdout+stderr text
  (`subprocess.run(cmd, stdout=PIPE, stderr=STDOUT, text=True)`);
* every `print` is collected into an operator-stream list `printed`, and the
  list of spawned argument vectors is returned as the trace `executed`.

Python string primitives used by the source (`str.splitlines`, `str.lower`,
substring membership, and the two `re` status patterns) are embedded below on
`List Char`, restricted to the ASCII behaviour relevant to tool output.
-/

namespace NetworkAgent

/-- Python word character for the regex `\b` boundary (ASCII part of `\w`). -/
def isPyWordChar (c : Char) : Bool := c.isAlphanum || c = '_'

/-- Python whitespace for the regex class `\s` (ASCII part). -/
def isPySpace (c : Char) : Bool :=
  c = ' ' || c = '\t' || c = '\n' || c = '\r' || c.toNat = 0x0b || c.toNat = 0x0c

/-- Line-break characters recognised by Python `str.splitlines`. -/
def isPyLineBreak (c : Char) : Bool :=
  c = '\n' || c = '\r' || c.toNat = 0x0b || c.toNat = 0x0c ||
  c.toNat = 0x1c || c.toNat = 0x1d || c.toNat = 0x1e || c.toNat = 0x85 ||
  c.toNat = 0x2028 || c.toNat = 0x2029

/-- Helper for `pySplitlines`: `acc` is the current line, reversed. -/
def pySplitlinesAux (acc : List Char) : List Char → List String
  | [] => if acc.isEmpty then [] else [String.mk acc.reverse]
  | '\r' :: '\n' :: rest => String.mk acc.reverse :: pySplitlinesAux [] rest
  | c :: rest =>
    if isPyLineBreak c then String.mk acc.reverse :: pySplitlinesAux [] rest
    else pySplitlinesAux (c :: acc) rest

/-- Python `str.splitlines()`: split at line breaks (treating `"\r\n"` as one
break), with no trailing empty line for a trailing break. -/
def pySplitlines (s : String) : List String := pySplitlinesAux [] s.data

/-- Python substring membership `n in h` on character lists. -/
def isSubstr (n : List Char) : List Char → Bool
  | [] => n.isEmpty
  | c :: t => n.isPrefixOf (c :: t) || isSubstr n t

/-- The string the fallback logic inspects: `"\n".join(lines).lower()`
(ASCII lower-casing). -/
def joinedLower (lines : List String) : List Char :=
  (String.intercalate "\n" lines).data.map Char.toLower

/-- Case-insensitive literal matching for the regexes: strips `kw` (given in
lower case) from the front of `l`, comparing each char lower-cased. -/
def stripCI : List Char → List Char → Option (List Char)
  | [], l => some l
  | _ :: _, [] => none
  | k :: ks, c :: cs => if c.toLower = k then stripCI ks cs else none

/-- The regex fragment `\d{3}`: three decimal digits at the front, parsed as
the `int` the sources compute from the match group. -/
def threeDigits : List Char → Option Int
  | a :: b :: c :: _ =>
    if a.isDigit && b.isDigit && c.isDigit then
      some ((Int.ofNat (a.toNat - 48)) * 100 + (Int.ofNat (b.toNat - 48)) * 10 +
        Int.ofNat (c.toNat - 48))
    else none
  | _ => none

/-- Attempt, at the current position, the body of mcp_server's pattern
`(\bstatus[:\s]*)(\d{3})` (IGNORECASE), minus the boundary check.
`[:\s]*` is greedy, and since `:`/whitespace are not digits the greedy run is
the only run the pattern can use, so no backtracking is modelled. -/
def matchStatusMcpAt (l : List Char) : Option Int :=
  match stripCI ['s', 't', 'a', 't', 'u', 's'] l with
  | none => none
  | some rest => threeDigits (rest.dropWhile (fun c => c = ':' || isPySpace c))

/-- Leftmost-match search for mcp_server's status pattern; `prev` is the
character before the current position, for the `\b` boundary (the pattern
starts with the word character `s`, so the boundary holds exactly when the
previous character is absent or not a word character). -/
def findStatusMcpAux : Option Char → List Char → Option Int
  | _, [] => none
  | prev, c :: rest =>
    let bdy : Bool := match prev with
      | none => true
      | some p => !(isPyWordChar p)
    match (if bdy then matchStatusMcpAt (c :: rest) else none) with
    | some v => some v
    | none => findStatusMcpAux (some c) rest

/-- `re.compile(r"(\bstatus[:\s]*)(\d{3})", re.IGNORECASE).search(line)`,
returning the `int` of group 2, as used by `_run` in `src/mcp_server.py`. -/
def findStatusMcp (l : List Char) : Option Int := findStatusMcpAux none l

/-- Attempt, at the current position, the body of tool.py's pattern
`Status:\s*(\d{3})` (IGNORECASE): no boundary, and the colon is mandatory. -/
def matchStatusToolAt (l : List Char) : Option Int :=
  match stripCI ['s', 't', 'a', 't', 'u', 's', ':'] l with
  | none => none
  | some rest => threeDigits (rest.dropWhile isPySpace)

/-- `re.compile(r"Status:\s*(\d{3})", re.IGNORECASE).search(line)`, returning
the `int` of group 1, as used by `_run` in `src/Learnings/tool.py`. -/
def findStatusTool : List Char → Option Int
  | [] => none
  | c :: rest =>
    match matchStatusToolAt (c :: rest) with
    | some v => some v
    | none => findStatusTool rest

/-- Result of running one candidate process: `subprocess.run(cmd,
stdout=PIPE, stderr=STDOUT, text=True)` gives an exit code and the combined
stdout+stderr text. -/
structure ProcOut where
  exitCode : Int
  stdout : String
deriving DecidableEq, Repr

/-- The external world as seen by `run_gobuster_auto`. -/
structure Env where
  /-- `shutil.which("gobuster") is not None`. -/
  gobusterOnPath : Bool
  /-- `Path(w).exists() and Path(w).is_file()` for each path `w`. -/
  isFile : String → Bool
  /-- Behaviour of the external binary per argument vector. -/
  proc : List String → ProcOut

/-- The returned triple `(exit_code, captured_lines, which_invocation_used)`. -/
structure ScanResult where
  exitCode : Int
  capturedLines : List String
  invocationUsed : String
deriving DecidableEq, Repr

/-- A run of the candidate loop: the returned `ScanResult`, the trace of
spawned argument vectors, and the operator-stream lines printed. -/
structure LoopOut where
  result : ScanResult
  executed : List (List String)
  printed : List String
deriving DecidableEq, Repr

/-- The two fatal pre-flight exceptions: `RuntimeError` for a missing binary
and `FileNotFoundError(f"Wordlist not found: ...")` for a missing wordlist. -/
inductive FatalError where
  | toolNotFound : FatalError
  | wordlistNotFound : String → FatalError
deriving DecidableEq, Repr

/-- Projection used to compare the two implementations' returned results. -/
def resultOf (e : Except FatalError LoopOut) : Option ScanResult :=
  match e with
  | .ok lo => some lo.result
  | .error _ => none

/-- `"positional" if cmd == positional_cmd else "-m-flag"`.  (`tool.py` uses
`is` instead of `==`; the two coincide here because the positional and flag
vectors always have different lengths, see `positionalCmd_ne_flagCmd`.) -/
def invTag (positional_cmd cmd : List String) : String :=
  if cmd = positional_cmd then "positional" else "-m-flag"

/-- The syntax-mismatch markers of `src/mcp_server.py` (lines 147-154). -/
def mcpMarkers : List String :=
  ["wordlist (-w): must be specified",
   "url/domain (-u): must be specified",
   "unknown command",
   "invalid subcommand",
   "error parsing",
   "no such file or directory"]

/-- The syntax-mismatch markers of `src/Learnings/tool.py` (line 92): the two
`in` tests of that line, as a list. -/
def toolMarkers : List String :=
  ["wordlist (-w): must be specified",
   "url/domain (-u): must be specified"]

/-- `any(kw in joined for kw in kws)` where `joined = "\n".join(lines).lower()`. -/
def markerMatch (kws : List String) (lines : List String) : Bool :=
  kws.any (fun kw => isSubstr kw.data (joinedLower lines))

/-- `positional_cmd = ["gobuster", mode, "-u", target, "-w", wordlist, "-t",
str(threads)] + extra_args` — identical in both source files. -/
def positionalCmd (mode target wordlist : String) (threads : Int)
    (extra_args : List String) : List String :=
  ["gobuster", mode, "-u", target, "-w", wordlist, "-t", toString threads] ++ extra_args

/-- `flag_cmd = ["gobuster", "-m", mode, "-u", target, "-w", wordlist, "-t",
str(threads)] + extra_args` — identical in both source files. -/
def flagCmd (mode target wordlist : String) (threads : Int)
    (extra_args : List String) : List String :=
  ["gobuster", "-m", mode, "-u", target, "-w", wordlist, "-t", toString threads] ++ extra_args

namespace McpServer

/-- The lines `_run` prints (`src/mcp_server.py` lines 104-118): all lines when
`print_success_only` is false; otherwise exactly the lines whose status-regex
match parses to a member of `include_statuses`. -/
def runFilter (print_success_only : Bool) (include_statuses : List Int)
    (lines : List String) : List String :=
  if print_success_only then
    lines.filter (fun line =>
      match findStatusMcp line.data with
      | some st => include_statuses.contains st
      | none => false)
  else lines

/-- The `for i, cmd in enumerate(attempts, start=1)` loop of
`src/mcp_server.py` (lines 132-165).  `last` carries `(last_ret, last_lines)`;
the source updates them on every iteration, but every non-`continue` branch
returns at once, so threading them through the `continue` path is equivalent.
The exhausted-attempts tag is computed by the caller and passed in. -/
def attemptLoop (proc : List String → ProcOut) (pso : Bool) (incl : List Int)
    (positional_cmd : List String) (exhaustTag : String) :
    Nat → Int × List String → List (List String) → LoopOut
  | _, last, [] =>
    { result := { exitCode := last.1, capturedLines := last.2, invocationUsed := exhaustTag },
      executed := [], printed := [] }
  | i, _, cmd :: rest =>
    let code := (proc cmd).exitCode
    let lines := pySplitlines (proc cmd).stdout
    let prt := ("Executing: " ++ String.intercalate " " cmd) :: runFilter pso incl lines
    if code = 0 ∨ code = 1 then
      { result := { exitCode := code, capturedLines := lines,
                    invocationUsed := invTag positional_cmd cmd },
        executed := [cmd], printed := prt }
    else if markerMatch mcpMarkers lines then
      let nxt := attemptLoop proc pso incl positional_cmd exhaustTag (i + 1) (code, lines) rest
      { result := nxt.result, executed := cmd :: nxt.executed,
        printed := prt ++ ("[Invocation " ++ toString i ++
          " returned argument/parse error — trying next invocation if available]") :: nxt.printed }
    else
      { result := { exitCode := code, capturedLines := lines,
                    invocationUsed := invTag positional_cmd cmd },
        executed := [cmd], printed := prt }

/-- `run_gobuster_auto` of `src/mcp_server.py` (lines 70-165).  The `None`
defaults of `extra_args` and `include_statuses` are modelled with `Option`
arguments resolved exactly where the source resolves them. -/
def run_gobuster_auto (env : Env) (mode target wordlist : String) (threads : Int)
    (extra_args : Option (List String)) (print_success_only : Bool)
    (include_statuses : Option (List Int)) (force_use_m_flag : Option Bool) :
    Except FatalError LoopOut :=
  if env.gobusterOnPath = false then .error .toolNotFound
  else
    let ea := extra_args.getD []
    let incl := include_statuses.getD [200, 204, 301, 302, 307, 403]
    if wordlist ≠ "-" ∧ wordlist ≠ "" ∧ env.isFile wordlist = false then
      .error (.wordlistNotFound wordlist)
    else
      let pc := positionalCmd mode target wordlist threads ea
      let fc := flagCmd mode target wordlist threads ea
      let attempts : List (List String) :=
        match force_use_m_flag with
        | some true => [fc]
        | some false => [pc]
        | none => [pc, fc]
      let exhaustTag : String :=
        if attempts.length > 1 then "positional_then_flag"
        else match force_use_m_flag with
          | some true => "-m-flag"
          | _ => "positional"
      .ok (attemptLoop env.proc print_success_only incl pc exhaustTag 1 (1, []) attempts)

end McpServer

namespace LearningsTool

/-- The lines `_run` prints (`src/Learnings/tool.py` lines 47-59): same shape
as mcp_server's filter, but with the stricter `Status:\s*(\d{3})` pattern. -/
def runFilter (print_success_only : Bool) (include_statuses : List Int)
    (lines : List String) : List String :=
  if print_success_only then
    lines.filter (fun line =>
      match findStatusTool line.data with
      | some st => include_statuses.contains st
      | none => false)
  else lines

/-- The `for i, cmd in enumerate(attempts, start=1)` loop of
`src/Learnings/tool.py` (lines 80-103).  Differences from mcp_server's loop:
only exit code 0 is accepted as success; only the two `toolMarkers` trigger
fallback; the progress note text differs; and the `"Executing:"` echo happens
inside `_run` (same position in the stream).  The exhausted-attempts return
reuses the loop variables of the last iteration, threaded here as `last`
(the initial value is unreachable since `attempts` is never empty). -/
def attemptLoop (proc : List String → ProcOut) (pso : Bool) (incl : List Int)
    (positional_cmd : List String) (exhaustTag : String) :
    Nat → Int × List String → List (List String) → LoopOut
  | _, last, [] =>
    { result := { exitCode := last.1, capturedLines := last.2, invocationUsed := exhaustTag },
      executed := [], printed := [] }
  | i, _, cmd :: rest =>
    let code := (proc cmd).exitCode
    let lines := pySplitlines (proc cmd).stdout
    let prt := ("Executing: " ++ String.intercalate " " cmd) :: runFilter pso incl lines
    if code = 0 then
      { result := { exitCode := code, capturedLines := lines,
                    invocationUsed := invTag positional_cmd cmd },
        executed := [cmd], printed := prt }
    else if markerMatch toolMarkers lines then
      let nxt := attemptLoop proc pso incl positional_cmd exhaustTag (i + 1) (code, lines) rest
      { result := nxt.result, executed := cmd :: nxt.executed,
        printed := prt ++ ("[Invocation " ++ toString i ++
          " returned the missing-arg error; will try next invocation if available]") :: nxt.printed }
    else
      { result := { exitCode := code, capturedLines := lines,
                    invocationUsed := invTag positional_cmd cmd },
        executed := [cmd], printed := prt }

/-- `run_gobuster_auto` of `src/Learnings/tool.py` (lines 7-103).  The
pre-flight validation, defaults, candidate vectors, attempt order and
exhausted tag are textually identical to mcp_server's. -/
def run_gobuster_auto (env : Env) (mode target wordlist : String) (threads : Int)
    (extra_args : Option (List String)) (print_success_only : Bool)
    (include_statuses : Option (List Int)) (force_use_m_flag : Option Bool) :
    Except FatalError LoopOut :=
  if env.gobusterOnPath = false then .error .toolNotFound
  else
    let ea := extra_args.getD []
    let incl := include_statuses.getD [200, 204, 301, 302, 307, 403]
    if wordlist ≠ "-" ∧ wordlist ≠ "" ∧ env.isFile wordlist = false then
      .error (.wordlistNotFound wordlist)
    else
      let pc := positionalCmd mode target wordlist threads ea
      let fc := flagCmd mode target wordlist threads ea
      let attempts : List (List String) :=
        match force_use_m_flag with
        | some true => [fc]
        | some false => [pc]
        | none => [pc, fc]
      let exhaustTag : String :=
        if attempts.length > 1 then "positional_then_flag"
        else match force_use_m_flag with
          | some true => "-m-flag"
          | _ => "positional"
      .ok (attemptLoop env.proc print_success_only incl pc exhaustTag 1 (1, []) attempts)

end LearningsTool

/-! Helper lemmas about the embedding. -/

theorem positionalCmd_ne_flagCmd (mode target wordlist : String) (threads : Int)
    (ea : List String) :
    positionalCmd mode target wordlist threads ea ≠ flagCmd mode target wordlist threads ea := by
  intro h
  have hlen := congrArg List.length h
  simp [positionalCmd, flagCmd] at hlen

theorem invTag_self (p : List String) : invTag p p = "positional" := by
  simp [invTag]

theorem invTag_flag (mode target wordlist : String) (threads : Int) (ea : List String) :
    invTag (positionalCmd mode target wordlist threads ea)
      (flagCmd mode target wordlist threads ea) = "-m-flag" := by
  have h := positionalCmd_ne_flagCmd mode target wordlist threads ea
  simp only [invTag, if_neg (fun hc => h (Eq.symm hc))]

theorem toolMatch_imp_mcpMatch (lines : List String)
    (h : markerMatch toolMarkers lines = true) : markerMatch mcpMarkers lines = true := by
  simp only [markerMatch, toolMarkers, mcpMarkers, List.any_cons, List.any_nil,
    Bool.or_eq_true] at h ⊢
  tauto

theorem mcp_loop_success (proc : List String → ProcOut) (pso : Bool) (incl : List Int)
    (p : List String) (t : String) (i : Nat) (last : Int × List String)
    (cmd : List String) (rest : List (List String))
    (h : (proc cmd).exitCode = 0 ∨ (proc cmd).exitCode = 1) :
    McpServer.attemptLoop proc pso incl p t i last (cmd :: rest) =
      { result := { exitCode := (proc cmd).exitCode,
                    capturedLines := pySplitlines (proc cmd).stdout,
                    invocationUsed := invTag p cmd },
        executed := [cmd],
        printed := ("Executing: " ++ String.intercalate " " cmd) ::
          McpServer.runFilter pso incl (pySplitlines (proc cmd).stdout) } := by
  simp only [McpServer.attemptLoop]
  rw [if_pos h]

theorem mcp_loop_continue (proc : List String → ProcOut) (pso : Bool) (incl : List Int)
    (p : List String) (t : String) (i : Nat) (last : Int × List String)
    (cmd : List String) (rest : List (List String))
    (h : ¬((proc cmd).exitCode = 0 ∨ (proc cmd).exitCode = 1))
    (hm : markerMatch mcpMarkers (pySplitlines (proc cmd).stdout) = true) :
    McpServer.attemptLoop proc pso incl p t i last (cmd :: rest) =
      { result := (McpServer.attemptLoop proc pso incl p t (i + 1)
          ((proc cmd).exitCode, pySplitlines (proc cmd).stdout) rest).result,
        executed := cmd :: (McpServer.attemptLoop proc pso incl p t (i + 1)
          ((proc cmd).exitCode, pySplitlines (proc cmd).stdout) rest).executed,
        printed := (("Executing: " ++ String.intercalate " " cmd) ::
            McpServer.runFilter pso incl (pySplitlines (proc cmd).stdout)) ++
          ("[Invocation " ++ toString i ++
            " returned argument/parse error — trying next invocation if available]") ::
          (McpServer.attemptLoop proc pso incl p t (i + 1)
            ((proc cmd).exitCode, pySplitlines (proc cmd).stdout) rest).printed } := by
  simp only [McpServer.attemptLoop]
  rw [if_neg h, if_pos hm]

theorem mcp_loop_terminal (proc : List String → ProcOut) (pso : Bool) (incl : List Int)
    (p : List String) (t : String) (i : Nat) (last : Int × List String)
    (cmd : List String) (rest : List (List String))
    (h : ¬((proc cmd).exitCode = 0 ∨ (proc cmd).exitCode = 1))
    (hm : markerMatch mcpMarkers (pySplitlines (proc cmd).stdout) = false) :
    McpServer.attemptLoop proc pso incl p t i last (cmd :: rest) =
      { result := { exitCode := (proc cmd).exitCode,
                    capturedLines := pySplitlines (proc cmd).stdout,
                    invocationUsed := invTag p cmd },
        executed := [cmd],
        printed := ("Executing: " ++ String.intercalate " " cmd) ::
          McpServer.runFilter pso incl (pySplitlines (proc cmd).stdout) } := by
  simp only [McpServer.attemptLoop]
  rw [if_neg h, if_neg (by simp [hm])]

theorem tool_loop_success (proc : List String → ProcOut) (pso : Bool) (incl : List Int)
    (p : List String) (t : String) (i : Nat) (last : Int × List String)
    (cmd : List String) (rest : List (List String))
    (h : (proc cmd).exitCode = 0) :
    LearningsTool.attemptLoop proc pso incl p t i last (cmd :: rest) =
      { result := { exitCode := (proc cmd).exitCode,
                    capturedLines := pySplitlines (proc cmd).stdout,
                    invocationUsed := invTag p cmd },
        executed := [cmd],
        printed := ("Executing: " ++ String.intercalate " " cmd) ::
          LearningsTool.runFilter pso incl (pySplitlines (proc cmd).stdout) } := by
  simp only [LearningsTool.attemptLoop]
  rw [if_pos h]

theorem tool_loop_continue (proc : List String → ProcOut) (pso : Bool) (incl : List Int)
    (p : List String) (t : String) (i : Nat) (last : Int × List String)
    (cmd : List String) (rest : List (List String))
    (h : ¬(proc cmd).exitCode = 0)
    (hm : markerMatch toolMarkers (pySplitlines (proc cmd).stdout) = true) :
    LearningsTool.attemptLoop proc pso incl p t i last (cmd :: rest) =
      { result := (LearningsTool.attemptLoop proc pso incl p t (i + 1)
          ((proc cmd).exitCode, pySplitlines (proc cmd).stdout) rest).result,
        executed := cmd :: (LearningsTool.attemptLoop proc pso incl p t (i + 1)
          ((proc cmd).exitCode, pySplitlines (proc cmd).stdout) rest).executed,
        printed := (("Executing: " ++ String.intercalate " " cmd) ::
            LearningsTool.runFilter pso incl (pySplitlines (proc cmd).stdout)) ++
          ("[Invocation " ++ toString i ++
            " returned the missing-arg error; will try next invocation if available]") ::
          (LearningsTool.attemptLoop proc pso incl p t (i + 1)
            ((proc cmd).exitCode, pySplitlines (proc cmd).stdout) rest).printed } := by
  simp only [LearningsTool.attemptLoop]
  rw [if_neg h, if_pos hm]

theorem tool_loop_terminal (proc : List String → ProcOut) (pso : Bool) (incl : List Int)
    (p : List String) (t : String) (i : Nat) (last : Int × List String)
    (cmd : List String) (rest : List (List String))
    (h : ¬(proc cmd).exitCode = 0)
    (hm : markerMatch toolMarkers (pySplitlines (proc cmd).stdout) = false) :
    LearningsTool.attemptLoop proc pso incl p t i last (cmd :: rest) =
      { result := { exitCode := (proc cmd).exitCode,
                    capturedLines := pySplitlines (proc cmd).stdout,
                    invocationUsed := invTag p cmd },
        executed := [cmd],
        printed := ("Executing: " ++ String.intercalate " " cmd) ::
          LearningsTool.runFilter pso incl (pySplitlines (proc cmd).stdout) } := by
  simp only [LearningsTool.attemptLoop]
  rw [if_neg h, if_neg (by simp [hm])]

/-- The attempts list both sources build from `force_use_m_flag`. -/
def attemptsFor (mode target wordlist : String) (threads : Int) (ea : List String) :
    Option Bool → List (List String)
  | some true => [flagCmd mode target wordlist threads ea]
  | some false => [positionalCmd mode target wordlist threads ea]
  | none => [positionalCmd mode target wordlist threads ea,
             flagCmd mode target wordlist threads ea]

/-- The exhausted-attempts tag both sources compute, as a function of
`force_use_m_flag` (the `len(attempts) > 1` test already resolved). -/
def exhaustTagFor : Option Bool → String
  | some true => "-m-flag"
  | some false => "positional"
  | none => "positional_then_flag"

theorem mcp_run_noTool (env : Env) (mode target wordlist : String) (threads : Int)
    (ea : Option (List String)) (pso : Bool) (incl : Option (List Int)) (force : Option Bool)
    (hg : env.gobusterOnPath = false) :
    McpServer.run_gobuster_auto env mode target wordlist threads ea pso incl force =
      .error .toolNotFound := by
  simp [McpServer.run_gobuster_auto, hg]

theorem tool_run_noTool (env : Env) (mode target wordlist : String) (threads : Int)
    (ea : Option (List String)) (pso : Bool) (incl : Option (List Int)) (force : Option Bool)
    (hg : env.gobusterOnPath = false) :
    LearningsTool.run_gobuster_auto env mode target wordlist threads ea pso incl force =
      .error .toolNotFound := by
  simp [LearningsTool.run_gobuster_auto, hg]

theorem mcp_run_noWordlist (env : Env) (mode target wordlist : String) (threads : Int)
    (ea : Option (List String)) (pso : Bool) (incl : Option (List Int)) (force : Option Bool)
    (hg : env.gobusterOnPath = true) (h1 : wordlist ≠ "-") (h2 : wordlist ≠ "")
    (h3 : env.isFile wordlist = false) :
    McpServer.run_gobuster_auto env mode target wordlist threads ea pso incl force =
      .error (.wordlistNotFound wordlist) := by
  simp [McpServer.run_gobuster_auto, hg, h1, h2, h3]

theorem tool_run_noWordlist (env : Env) (mode target wordlist : String) (threads : Int)
    (ea : Option (List String)) (pso : Bool) (incl : Option (List Int)) (force : Option Bool)
    (hg : env.gobusterOnPath = true) (h1 : wordlist ≠ "-") (h2 : wordlist ≠ "")
    (h3 : env.isFile wordlist = false) :
    LearningsTool.run_gobuster_auto env mode target wordlist threads ea pso incl force =
      .error (.wordlistNotFound wordlist) := by
  simp [LearningsTool.run_gobuster_auto, hg, h1, h2, h3]

theorem mcp_run_valid (env : Env) (mode target wordlist : String) (threads : Int)
    (ea : Option (List String)) (pso : Bool) (incl : Option (List Int)) (force : Option Bool)
    (hg : env.gobusterOnPath = true)
    (hv : wordlist = "-" ∨ wordlist = "" ∨ env.isFile wordlist = true) :
    McpServer.run_gobuster_auto env mode target wordlist threads ea pso incl force =
      .ok (McpServer.attemptLoop env.proc pso (incl.getD [200, 204, 301, 302, 307, 403])
        (positionalCmd mode target wordlist threads (ea.getD []))
        (exhaustTagFor force) 1 (1, [])
        (attemptsFor mode target wordlist threads (ea.getD []) force)) := by
  have hcond : ¬(wordlist ≠ "-" ∧ wordlist ≠ "" ∧ env.isFile wordlist = false) := by
    rcases hv with h | h | h <;> simp [h]
  rcases force with _ | b
  · simp only [McpServer.run_gobuster_auto, hg]
    rw [if_neg (by simp), if_neg hcond]
    simp [attemptsFor, exhaustTagFor]
  · cases b <;>
      (simp only [McpServer.run_gobuster_auto, hg]
       rw [if_neg (by simp), if_neg hcond]
       simp [attemptsFor, exhaustTagFor])

theorem tool_run_valid (env : Env) (mode target wordlist : String) (threads : Int)
    (ea : Option (List String)) (pso : Bool) (incl : Option (List Int)) (force : Option Bool)
    (hg : env.gobusterOnPath = true)
    (hv : wordlist = "-" ∨ wordlist = "" ∨ env.isFile wordlist = true) :
    LearningsTool.run_gobuster_auto env mode target wordlist threads ea pso incl force =
      .ok (LearningsTool.attemptLoop env.proc pso (incl.getD [200, 204, 301, 302, 307, 403])
        (positionalCmd mode target wordlist threads (ea.getD []))
        (exhaustTagFor force) 1 (1, [])
        (attemptsFor mode target wordlist threads (ea.getD []) force)) := by
  have hcond : ¬(wordlist ≠ "-" ∧ wordlist ≠ "" ∧ env.isFile wordlist = false) := by
    rcases hv with h | h | h <;> simp [h]
  rcases force with _ | b
  · simp only [LearningsTool.run_gobuster_auto, hg]
    rw [if_neg (by simp), if_neg hcond]
    simp [attemptsFor, exhaustTagFor]
  · cases b <;>
      (simp only [LearningsTool.run_gobuster_auto, hg]
       rw [if_neg (by simp), if_neg hcond]
       simp [attemptsFor, exhaustTagFor])

theorem mcp_loop_indep (proc : List String → ProcOut) (p : List String) (t : String) :
    ∀ (as : List (List String)) (pso pso' : Bool) (incl incl' : List Int)
      (i : Nat) (last : Int × List String),
      (McpServer.attemptLoop proc pso incl p t i last as).result =
        (McpServer.attemptLoop proc pso' incl' p t i last as).result ∧
      (McpServer.attemptLoop proc pso incl p t i last as).executed =
        (McpServer.attemptLoop proc pso' incl' p t i last as).executed := by
  intro as
  induction as with
  | nil => intro pso pso' incl incl' i last; exact ⟨rfl, rfl⟩
  | cons cmd rest ih =>
    intro pso pso' incl incl' i last
    by_cases h : (proc cmd).exitCode = 0 ∨ (proc cmd).exitCode = 1
    · rw [mcp_loop_success proc pso incl p t i last cmd rest h,
        mcp_loop_success proc pso' incl' p t i last cmd rest h]
      exact ⟨rfl, rfl⟩
    · by_cases hm : markerMatch mcpMarkers (pySplitlines (proc cmd).stdout) = true
      · rw [mcp_loop_continue proc pso incl p t i last cmd rest h hm,
          mcp_loop_continue proc pso' incl' p t i last cmd rest h hm]
        have hrec := ih pso pso' incl incl' (i + 1)
          ((proc cmd).exitCode, pySplitlines (proc cmd).stdout)
        exact ⟨hrec.1, by rw [hrec.2]⟩
      · rw [mcp_loop_terminal proc pso incl p t i last cmd rest h
            (Bool.not_eq_true _ ▸ hm),
          mcp_loop_terminal proc pso' incl' p t i last cmd rest h
            (Bool.not_eq_true _ ▸ hm)]
        exact ⟨rfl, rfl⟩

theorem tool_loop_indep (proc : List String → ProcOut) (p : List String) (t : String) :
    ∀ (as : List (List String)) (pso pso' : Bool) (incl incl' : List Int)
      (i : Nat) (last : Int × List String),
      (LearningsTool.attemptLoop proc pso incl p t i last as).result =
        (LearningsTool.attemptLoop proc pso' incl' p t i last as).result ∧
      (LearningsTool.attemptLoop proc pso incl p t i last as).executed =
        (LearningsTool.attemptLoop proc pso' incl' p t i last as).executed := by
  intro as
  induction as with
  | nil => intro pso pso' incl incl' i last; exact ⟨rfl, rfl⟩
  | cons cmd rest ih =>
    intro pso pso' incl incl' i last
    by_cases h : (proc cmd).exitCode = 0
    · rw [tool_loop_success proc pso incl p t i last cmd rest h,
        tool_loop_success proc pso' incl' p t i last cmd rest h]
      exact ⟨rfl, rfl⟩
    · by_cases hm : markerMatch toolMarkers (pySplitlines (proc cmd).stdout) = true
      · rw [tool_loop_continue proc pso incl p t i last cmd rest h hm,
          tool_loop_continue proc pso' incl' p t i last cmd rest h hm]
        have hrec := ih pso pso' incl incl' (i + 1)
          ((proc cmd).exitCode, pySplitlines (proc cmd).stdout)
        exact ⟨hrec.1, by rw [hrec.2]⟩
      · rw [tool_loop_terminal proc pso incl p t i last cmd rest h
            (Bool.not_eq_true _ ▸ hm),
          tool_loop_terminal proc pso' incl' p t i last cmd rest h
            (Bool.not_eq_true _ ▸ hm)]
        exact ⟨rfl, rfl⟩

theorem valid_of_not_invalid (env : Env) (wordlist : String)
    (h : ¬(wordlist ≠ "-" ∧ wordlist ≠ "" ∧ env.isFile wordlist = false)) :
    wordlist = "-" ∨ wordlist = "" ∨ env.isFile wordlist = true := by
  by_cases h1 : wordlist = "-"
  · exact Or.inl h1
  by_cases h2 : wordlist = ""
  · exact Or.inr (Or.inl h2)
  by_cases h3 : env.isFile wordlist = true
  · exact Or.inr (Or.inr h3)
  exact absurd ⟨h1, h2, Bool.not_eq_true _ ▸ h3⟩ h

theorem mcp_loop_single (proc : List String → ProcOut) (pso : Bool) (incl : List Int)
    (p : List String) (t : String) (i : Nat) (last : Int × List String) (cmd : List String) :
    (McpServer.attemptLoop proc pso incl p t i last [cmd]).executed = [cmd] ∧
    (McpServer.attemptLoop proc pso incl p t i last [cmd]).result.exitCode =
      (proc cmd).exitCode ∧
    (McpServer.attemptLoop proc pso incl p t i last [cmd]).result.capturedLines =
      pySplitlines (proc cmd).stdout := by
  by_cases h : (proc cmd).exitCode = 0 ∨ (proc cmd).exitCode = 1
  · rw [mcp_loop_success proc pso incl p t i last cmd [] h]
    exact ⟨rfl, rfl, rfl⟩
  · by_cases hm : markerMatch mcpMarkers (pySplitlines (proc cmd).stdout) = true
    · rw [mcp_loop_continue proc pso incl p t i last cmd [] h hm]
      exact ⟨rfl, rfl, rfl⟩
    · rw [mcp_loop_terminal proc pso incl p t i last cmd [] h (Bool.not_eq_true _ ▸ hm)]
      exact ⟨rfl, rfl, rfl⟩

theorem mcp_loop_head_executed (proc : List String → ProcOut) (pso : Bool) (incl : List Int)
    (p : List String) (t : String) (i : Nat) (last : Int × List String)
    (cmd : List String) (rest : List (List String)) :
    (McpServer.attemptLoop proc pso incl p t i last (cmd :: rest)).executed.head? = some cmd := by
  by_cases h : (proc cmd).exitCode = 0 ∨ (proc cmd).exitCode = 1
  · rw [mcp_loop_success proc pso incl p t i last cmd rest h]
    rfl
  · by_cases hm : markerMatch mcpMarkers (pySplitlines (proc cmd).stdout) = true
    · rw [mcp_loop_continue proc pso incl p t i last cmd rest h hm]
      rfl
    · rw [mcp_loop_terminal proc pso incl p t i last cmd rest h (Bool.not_eq_true _ ▸ hm)]
      rfl

theorem mcp_loop_single_flag_tag (proc : List String → ProcOut) (pso : Bool) (incl : List Int)
    (mode target wordlist : String) (threads : Int) (ea : List String)
    (i : Nat) (last : Int × List String) :
    (McpServer.attemptLoop proc pso incl (positionalCmd mode target wordlist threads ea)
      "-m-flag" i last [flagCmd mode target wordlist threads ea]).result.invocationUsed =
      "-m-flag" := by
  by_cases h : (proc (flagCmd mode target wordlist threads ea)).exitCode = 0 ∨
      (proc (flagCmd mode target wordlist threads ea)).exitCode = 1
  · rw [mcp_loop_success _ pso incl _ _ i last _ [] h]
    exact invTag_flag mode target wordlist threads ea
  · by_cases hm : markerMatch mcpMarkers
        (pySplitlines (proc (flagCmd mode target wordlist threads ea)).stdout) = true
    · rw [mcp_loop_continue _ pso incl _ _ i last _ [] h hm]
      rfl
    · rw [mcp_loop_terminal _ pso incl _ _ i last _ [] h (Bool.not_eq_true _ ▸ hm)]
      exact invTag_flag mode target wordlist threads ea

/-- Agreement of the two attempt loops whenever no attempted outcome hits one
of the two behavioural differences (exit code 1 with a shared marker; an
mcp-only marker on a non-0/1 exit). -/
theorem loops_agree (proc : List String → ProcOut) (p : List String) (t : String)
    (pso pso' : Bool) (incl incl' : List Int) :
    ∀ (as : List (List String)) (i i' : Nat) (last : Int × List String),
      (∀ cmd ∈ as,
        ((proc cmd).exitCode = 1 →
          markerMatch toolMarkers (pySplitlines (proc cmd).stdout) = false) ∧
        ((proc cmd).exitCode ≠ 0 → (proc cmd).exitCode ≠ 1 →
          markerMatch mcpMarkers (pySplitlines (proc cmd).stdout) = true →
          markerMatch toolMarkers (pySplitlines (proc cmd).stdout) = true)) →
      (McpServer.attemptLoop proc pso incl p t i last as).result =
        (LearningsTool.attemptLoop proc pso' incl' p t i' last as).result := by
  intro as
  induction as with
  | nil => intro i i' last _; rfl
  | cons cmd rest ih =>
    intro i i' last hcond
    have hcmd := hcond cmd (List.mem_cons_self cmd rest)
    have hrest : ∀ c ∈ rest, _ := fun c hc => hcond c (List.mem_cons_of_mem cmd hc)
    by_cases h0 : (proc cmd).exitCode = 0
    · rw [mcp_loop_success proc pso incl p t i last cmd rest (Or.inl h0),
        tool_loop_success proc pso' incl' p t i' last cmd rest h0]
    · by_cases h1 : (proc cmd).exitCode = 1
      · have htm := hcmd.1 h1
        rw [mcp_loop_success proc pso incl p t i last cmd rest (Or.inr h1),
          tool_loop_terminal proc pso' incl' p t i' last cmd rest h0 htm]
      · by_cases htm : markerMatch toolMarkers (pySplitlines (proc cmd).stdout) = true
        · have hmm := toolMatch_imp_mcpMatch _ htm
          rw [mcp_loop_continue proc pso incl p t i last cmd rest
              (by intro hc; rcases hc with hc | hc; exact h0 hc; exact h1 hc) hmm,
            tool_loop_continue proc pso' incl' p t i' last cmd rest h0 htm]
          exact ih (i + 1) (i' + 1) ((proc cmd).exitCode, pySplitlines (proc cmd).stdout) hrest
        · have htm' : markerMatch toolMarkers (pySplitlines (proc cmd).stdout) = false :=
            Bool.not_eq_true _ ▸ htm
          have hmm : markerMatch mcpMarkers (pySplitlines (proc cmd).stdout) = false := by
            by_contra hc
            exact htm (hcmd.2 h0 h1 (Bool.not_eq_false _ ▸ hc))
          rw [mcp_loop_terminal proc pso incl p t i last cmd rest
              (by intro hc; rcases hc with hc | hc; exact h0 hc; exact h1 hc) hmm,
            tool_loop_terminal proc pso' incl' p t i' last cmd rest h0 htm']

/-! The claims. -/

/-- C1: for every request with auto-detect invocation preference
(`force_use_m_flag = None`) and an existing wordlist, if the legacy
positional-style invocation's process exits with code 0 or 1,
`run_gobuster_auto` accepts it as success: it returns that exit code, the
captured lines, and the legacy dialect tag `"positional"` as
`invocationUsed`, and the flag-style candidate is never executed. -/
theorem claim_C1 (env : Env) (mode target wordlist : String) (threads : Int)
    (ea : Option (List String)) (pso : Bool) (incl : Option (List Int))
    (hg : env.gobusterOnPath = true)
    (hw : env.isFile wordlist = true)
    (hc : (env.proc (positionalCmd mode target wordlist threads (ea.getD []))).exitCode = 0 ∨
      (env.proc (positionalCmd mode target wordlist threads (ea.getD []))).exitCode = 1) :
    ∃ lo, McpServer.run_gobuster_auto env mode target wordlist threads ea pso incl none =
        Except.ok lo ∧
      lo.result.exitCode =
        (env.proc (positionalCmd mode target wordlist threads (ea.getD []))).exitCode ∧
      lo.result.capturedLines =
        pySplitlines (env.proc (positionalCmd mode target wordlist threads (ea.getD []))).stdout ∧
      lo.result.invocationUsed = "positional" ∧
      lo.executed = [positionalCmd mode target wordlist threads (ea.getD [])] ∧
      flagCmd mode target wordlist threads (ea.getD []) ∉ lo.executed := by
  rw [mcp_run_valid env mode target wordlist threads ea pso incl none hg (Or.inr (Or.inr hw))]
  refine ⟨_, rfl, ?_⟩
  simp only [attemptsFor, exhaustTagFor]
  rw [mcp_loop_success env.proc pso (incl.getD [200, 204, 301, 302, 307, 403])
    (positionalCmd mode target wordlist threads (ea.getD [])) "positional_then_flag" 1 (1, [])
    (positionalCmd mode target wordlist threads (ea.getD []))
    [flagCmd mode target wordlist threads (ea.getD [])] hc]
  refine ⟨rfl, rfl, invTag_self _, rfl, ?_⟩
  simp only [List.mem_singleton]
  exact fun hfc => positionalCmd_ne_flagCmd mode target wordlist threads (ea.getD []) hfc.symm

def envC1 : Env := ⟨true, fun _ => true, fun _ => ⟨0, "hit"⟩⟩

theorem claim_C1_witness :
    envC1.gobusterOnPath = true ∧ envC1.isFile "w.txt" = true ∧
    ((envC1.proc (positionalCmd "dir" "http://x" "w.txt" 20 [])).exitCode = 0 ∨
      (envC1.proc (positionalCmd "dir" "http://x" "w.txt" 20 [])).exitCode = 1) ∧
    (∃ lo, McpServer.run_gobuster_auto envC1 "dir" "http://x" "w.txt" 20 none false none none =
        Except.ok lo ∧
      lo.result.exitCode = (envC1.proc (positionalCmd "dir" "http://x" "w.txt" 20 [])).exitCode ∧
      lo.result.capturedLines =
        pySplitlines (envC1.proc (positionalCmd "dir" "http://x" "w.txt" 20 [])).stdout ∧
      lo.result.invocationUsed = "positional" ∧
      lo.executed = [positionalCmd "dir" "http://x" "w.txt" 20 []] ∧
      flagCmd "dir" "http://x" "w.txt" 20 [] ∉ lo.executed) :=
  ⟨rfl, rfl, Or.inl rfl,
    claim_C1 envC1 "dir" "http://x" "w.txt" 20 none false none rfl rfl (Or.inl rfl)⟩

/-- C2: for every auto-detect request passing pre-flight validation, when the
first (legacy) invocation's process exits with a code other than 0 and 1 and
its captured output case-insensitively contains one of the syntax-mismatch
markers (such as "wordlist (-w): must be specified"), the next candidate in
the fixed order — the flag-style one — is attempted next, and that first
outcome is not returned as the result: the returned exit code and captured
lines are those of the flag-style attempt. -/
theorem claim_C2 (env : Env) (mode target wordlist : String) (threads : Int)
    (ea : Option (List String)) (pso : Bool) (incl : Option (List Int))
    (hg : env.gobusterOnPath = true)
    (hv : wordlist = "-" ∨ wordlist = "" ∨ env.isFile wordlist = true)
    (h0 : (env.proc (positionalCmd mode target wordlist threads (ea.getD []))).exitCode ≠ 0)
    (h1 : (env.proc (positionalCmd mode target wordlist threads (ea.getD []))).exitCode ≠ 1)
    (hm : markerMatch mcpMarkers
      (pySplitlines (env.proc (positionalCmd mode target wordlist threads (ea.getD []))).stdout) =
      true) :
    ∃ lo, McpServer.run_gobuster_auto env mode target wordlist threads ea pso incl none =
        Except.ok lo ∧
      lo.executed = [positionalCmd mode target wordlist threads (ea.getD []),
        flagCmd mode target wordlist threads (ea.getD [])] ∧
      lo.result.exitCode =
        (env.proc (flagCmd mode target wordlist threads (ea.getD []))).exitCode ∧
      lo.result.capturedLines =
        pySplitlines (env.proc (flagCmd mode target wordlist threads (ea.getD []))).stdout := by
  rw [mcp_run_valid env mode target wordlist threads ea pso incl none hg hv]
  refine ⟨_, rfl, ?_⟩
  simp only [attemptsFor, exhaustTagFor]
  rw [mcp_loop_continue env.proc pso (incl.getD [200, 204, 301, 302, 307, 403])
    (positionalCmd mode target wordlist threads (ea.getD [])) "positional_then_flag" 1 (1, [])
    (positionalCmd mode target wordlist threads (ea.getD []))
    [flagCmd mode target wordlist threads (ea.getD [])]
    (by intro hc; rcases hc with hc | hc; exact h0 hc; exact h1 hc) hm]
  have hs := mcp_loop_single env.proc pso (incl.getD [200, 204, 301, 302, 307, 403])
    (positionalCmd mode target wordlist threads (ea.getD [])) "positional_then_flag" 2
    ((env.proc (positionalCmd mode target wordlist threads (ea.getD []))).exitCode,
      pySplitlines (env.proc (positionalCmd mode target wordlist threads (ea.getD []))).stdout)
    (flagCmd mode target wordlist threads (ea.getD []))
  exact ⟨by rw [hs.1], hs.2.1, hs.2.2⟩

def envC2 : Env :=
  ⟨true, fun _ => true, fun cmd =>
    if cmd.length = 9 then ⟨0, "found: /a"⟩
    else ⟨2, "Error: wordlist (-w): must be specified"⟩⟩

theorem claim_C2_witness :
    envC2.gobusterOnPath = true ∧
    (envC2.proc (positionalCmd "dir" "http://t" "w" 20 [])).exitCode ≠ 0 ∧
    (envC2.proc (positionalCmd "dir" "http://t" "w" 20 [])).exitCode ≠ 1 ∧
    markerMatch mcpMarkers
      (pySplitlines (envC2.proc (positionalCmd "dir" "http://t" "w" 20 [])).stdout) = true ∧
    (∃ lo, McpServer.run_gobuster_auto envC2 "dir" "http://t" "w" 20 none false none none =
        Except.ok lo ∧
      lo.executed = [positionalCmd "dir" "http://t" "w" 20 [],
        flagCmd "dir" "http://t" "w" 20 []] ∧
      lo.result.exitCode = (envC2.proc (flagCmd "dir" "http://t" "w" 20 [])).exitCode ∧
      lo.result.capturedLines =
        pySplitlines (envC2.proc (flagCmd "dir" "http://t" "w" 20 [])).stdout) :=
  ⟨rfl, by decide, by decide, by decide,
    claim_C2 envC2 "dir" "http://t" "w" 20 none false none rfl (Or.inr (Or.inr rfl))
      (by decide) (by decide) (by decide)⟩

/-- C4: for every auto-detect request passing pre-flight validation in which
both candidates' processes exit with code 2 and output containing the
mismatch marker "unknown command", `run_gobuster_auto` (mcp_server.py)
returns the last outcome observed — exit code 2 and the last (flag-style)
candidate's captured lines — with the compound dialect tag
"positional_then_flag", both candidates having been attempted in order. -/
theorem claim_C4 (env : Env) (mode target wordlist : String) (threads : Int)
    (ea : Option (List String)) (pso : Bool) (incl : Option (List Int))
    (hg : env.gobusterOnPath = true)
    (hv : wordlist = "-" ∨ wordlist = "" ∨ env.isFile wordlist = true)
    (hp2 : (env.proc (positionalCmd mode target wordlist threads (ea.getD []))).exitCode = 2)
    (hf2 : (env.proc (flagCmd mode target wordlist threads (ea.getD []))).exitCode = 2)
    (hpm : isSubstr "unknown command".data (joinedLower
      (pySplitlines (env.proc (positionalCmd mode target wordlist threads (ea.getD []))).stdout)) =
      true)
    (hfm : isSubstr "unknown command".data (joinedLower
      (pySplitlines (env.proc (flagCmd mode target wordlist threads (ea.getD []))).stdout)) =
      true) :
    ∃ lo, McpServer.run_gobuster_auto env mode target wordlist threads ea pso incl none =
        Except.ok lo ∧
      lo.result = ScanResult.mk 2
        (pySplitlines (env.proc (flagCmd mode target wordlist threads (ea.getD []))).stdout)
        "positional_then_flag" ∧
      lo.executed = [positionalCmd mode target wordlist threads (ea.getD []),
        flagCmd mode target wordlist threads (ea.getD [])] := by
  have hpmm : markerMatch mcpMarkers
      (pySplitlines (env.proc (positionalCmd mode target wordlist threads (ea.getD []))).stdout) =
      true := by
    simp only [markerMatch, mcpMarkers, List.any_cons, List.any_nil, Bool.or_eq_true]
    tauto
  have hfmm : markerMatch mcpMarkers
      (pySplitlines (env.proc (flagCmd mode target wordlist threads (ea.getD []))).stdout) =
      true := by
    simp only [markerMatch, mcpMarkers, List.any_cons, List.any_nil, Bool.or_eq_true]
    tauto
  rw [mcp_run_valid env mode target wordlist threads ea pso incl none hg hv]
  refine ⟨_, rfl, ?_⟩
  simp only [attemptsFor, exhaustTagFor]
  rw [mcp_loop_continue env.proc pso (incl.getD [200, 204, 301, 302, 307, 403])
    (positionalCmd mode target wordlist threads (ea.getD [])) "positional_then_flag" 1 (1, [])
    (positionalCmd mode target wordlist threads (ea.getD []))
    [flagCmd mode target wordlist threads (ea.getD [])]
    (by rw [hp2]; intro hc; rcases hc with hc | hc <;> exact absurd hc (by decide)) hpmm]
  rw [mcp_loop_continue env.proc pso (incl.getD [200, 204, 301, 302, 307, 403])
    (positionalCmd mode target wordlist threads (ea.getD [])) "positional_then_flag" 2 _
    (flagCmd mode target wordlist threads (ea.getD [])) []
    (by rw [hf2]; intro hc; rcases hc with hc | hc <;> exact absurd hc (by decide)) hfmm]
  refine ⟨?_, rfl⟩
  show ScanResult.mk (env.proc (flagCmd mode target wordlist threads (ea.getD []))).exitCode
    (pySplitlines (env.proc (flagCmd mode target wordlist threads (ea.getD []))).stdout)
    "positional_then_flag" = _
  rw [hf2]

def envC4 : Env := ⟨true, fun _ => true, fun _ => ⟨2, "Error: unknown command for gobuster"⟩⟩

theorem claim_C4_witness :
    envC4.gobusterOnPath = true ∧
    (envC4.proc (positionalCmd "dir" "http://t" "w" 20 [])).exitCode = 2 ∧
    (envC4.proc (flagCmd "dir" "http://t" "w" 20 [])).exitCode = 2 ∧
    (∃ lo, McpServer.run_gobuster_auto envC4 "dir" "http://t" "w" 20 none false none none =
        Except.ok lo ∧
      lo.result = ScanResult.mk 2
        (pySplitlines (envC4.proc (flagCmd "dir" "http://t" "w" 20 [])).stdout)
        "positional_then_flag" ∧
      lo.executed = [positionalCmd "dir" "http://t" "w" 20 [],
        flagCmd "dir" "http://t" "w" 20 []]) :=
  ⟨rfl, rfl, rfl,
    claim_C4 envC4 "dir" "http://t" "w" 20 none false none rfl (Or.inr (Or.inr rfl))
      rfl rfl (by decide) (by decide)⟩

def envC3 : Env := ⟨true, fun _ => false, fun _ => ⟨0, "ok"⟩⟩

/-- C3 counterexample: with the gobuster binary present, a wordlist equal to
the empty string — a path at which no regular file exists (`envC3.isFile`
is constantly `false`) and which is not the stdin sentinel `"-"` — does NOT
make `run_gobuster_auto` raise a fatal error: the call succeeds and spawns a
candidate process, because the source guards the existence check with
Python truthiness (`wordlist != "-" and wordlist`). -/
theorem claim_C3_counterexample :
    ("" : String) ≠ "-" ∧ envC3.isFile "" = false ∧
    ∃ lo, McpServer.run_gobuster_auto envC3 "dir" "http://t" "" 20 none false none none =
        Except.ok lo ∧ lo.executed ≠ [] := by
  refine ⟨by decide, rfl, ?_⟩
  refine ⟨_, rfl, ?_⟩
  decide

/-- C3 (amended): for every request whose wordlist is a NON-EMPTY path to a
non-existent regular file and is not the stdin sentinel `"-"`, and for every
request made while the gobuster binary is absent from the search path, both
`run_gobuster_auto` definitions raise a fatal error (ToolNotFound when the
binary is absent — it is checked first — and WordlistNotFound otherwise)
before spawning any subprocess; no candidate is executed. -/
theorem claim_C3_amended (env : Env) (mode target wordlist : String) (threads : Int)
    (ea : Option (List String)) (pso : Bool) (incl : Option (List Int))
    (force : Option Bool) :
    (env.gobusterOnPath = false →
      McpServer.run_gobuster_auto env mode target wordlist threads ea pso incl force =
        Except.error FatalError.toolNotFound ∧
      LearningsTool.run_gobuster_auto env mode target wordlist threads ea pso incl force =
        Except.error FatalError.toolNotFound) ∧
    (env.gobusterOnPath = true → wordlist ≠ "-" → wordlist ≠ "" →
      env.isFile wordlist = false →
      McpServer.run_gobuster_auto env mode target wordlist threads ea pso incl force =
        Except.error (FatalError.wordlistNotFound wordlist) ∧
      LearningsTool.run_gobuster_auto env mode target wordlist threads ea pso incl force =
        Except.error (FatalError.wordlistNotFound wordlist)) :=
  ⟨fun hg => ⟨mcp_run_noTool env mode target wordlist threads ea pso incl force hg,
      tool_run_noTool env mode target wordlist threads ea pso incl force hg⟩,
    fun hg h1 h2 h3 =>
      ⟨mcp_run_noWordlist env mode target wordlist threads ea pso incl force hg h1 h2 h3,
        tool_run_noWordlist env mode target wordlist threads ea pso incl force hg h1 h2 h3⟩⟩

def envC3a : Env := ⟨false, fun _ => false, fun _ => ⟨0, "ok"⟩⟩

theorem claim_C3_amended_witness :
    (envC3a.gobusterOnPath = false ∧
      McpServer.run_gobuster_auto envC3a "dir" "http://t" "w" 20 none false none none =
        Except.error FatalError.toolNotFound) ∧
    (envC3.gobusterOnPath = true ∧ ("missing.txt" : String) ≠ "-" ∧
      ("missing.txt" : String) ≠ "" ∧ envC3.isFile "missing.txt" = false ∧
      McpServer.run_gobuster_auto envC3 "dir" "http://t" "missing.txt" 20 none false none none =
        Except.error (FatalError.wordlistNotFound "missing.txt")) :=
  ⟨⟨rfl, (claim_C3_amended envC3a "dir" "http://t" "w" 20 none false none none).1 rfl |>.1⟩,
    ⟨rfl, by decide, by decide, rfl,
      ((claim_C3_amended envC3 "dir" "http://t" "missing.txt" 20 none false none none).2
        rfl (by decide) (by decide) rfl).1⟩⟩

/-- C5: in mcp_server's `_run`, when `print_success_only` is true a captured
line is surfaced to the operator stream if and only if it contains the
status marker (case-insensitive token "status", optional colon/whitespace,
three digits — embedded in `findStatusMcp`) whose parsed value is in
`include_statuses`; with allow list 200, 403 the line "/admin Status: 403"
is surfaced and "/x Status: 404" is not; when `print_success_only` is false
every captured line is surfaced. -/
theorem claim_C5 :
    (∀ (incl : List Int) (lines : List String) (line : String),
      (line ∈ McpServer.runFilter true incl lines ↔
        line ∈ lines ∧ ∃ st, findStatusMcp line.data = some st ∧ incl.contains st = true) ∧
      McpServer.runFilter false incl lines = lines) ∧
    McpServer.runFilter true [200, 403] ["/admin Status: 403", "/x Status: 404"] =
      ["/admin Status: 403"] := by
  constructor
  · intro incl lines line
    constructor
    · simp only [McpServer.runFilter, if_true]
      rw [List.mem_filter]
      constructor
      · rintro ⟨hmem, hp⟩
        refine ⟨hmem, ?_⟩
        cases hfs : findStatusMcp line.data with
        | none => rw [hfs] at hp; exact absurd hp (by simp)
        | some st => rw [hfs] at hp; exact ⟨st, rfl, hp⟩
      · rintro ⟨hmem, st, hfs, hc⟩
        exact ⟨hmem, by rw [hfs]; exact hc⟩
    · simp [McpServer.runFilter]
  · decide

/-- C6: two-run noninterference of the filter settings on returned data, for
both implementations: the returned `ScanResult` (exit code, captured lines,
invocation tag) and even the trace of executed candidates are identical
whatever `print_success_only` and `include_statuses` are; filtering changes
only the operator stream. -/
theorem claim_C6 (env : Env) (mode target wordlist : String) (threads : Int)
    (ea : Option (List String)) (pso pso' : Bool) (incl incl' : Option (List Int))
    (force : Option Bool) :
    (McpServer.run_gobuster_auto env mode target wordlist threads ea pso incl force).map
        (fun lo => (lo.result, lo.executed)) =
      (McpServer.run_gobuster_auto env mode target wordlist threads ea pso' incl' force).map
        (fun lo => (lo.result, lo.executed)) ∧
    (LearningsTool.run_gobuster_auto env mode target wordlist threads ea pso incl force).map
        (fun lo => (lo.result, lo.executed)) =
      (LearningsTool.run_gobuster_auto env mode target wordlist threads ea pso' incl' force).map
        (fun lo => (lo.result, lo.executed)) := by
  constructor
  · by_cases hg : env.gobusterOnPath = true
    · by_cases hinv : wordlist ≠ "-" ∧ wordlist ≠ "" ∧ env.isFile wordlist = false
      · rw [mcp_run_noWordlist env mode target wordlist threads ea pso incl force hg
            hinv.1 hinv.2.1 hinv.2.2,
          mcp_run_noWordlist env mode target wordlist threads ea pso' incl' force hg
            hinv.1 hinv.2.1 hinv.2.2]
      · have hv := valid_of_not_invalid env wordlist hinv
        rw [mcp_run_valid env mode target wordlist threads ea pso incl force hg hv,
          mcp_run_valid env mode target wordlist threads ea pso' incl' force hg hv]
        simp only [Except.map]
        have h := mcp_loop_indep env.proc
          (positionalCmd mode target wordlist threads (ea.getD [])) (exhaustTagFor force)
          (attemptsFor mode target wordlist threads (ea.getD []) force)
          pso pso' (incl.getD [200, 204, 301, 302, 307, 403])
          (incl'.getD [200, 204, 301, 302, 307, 403]) 1 (1, [])
        rw [h.1, h.2]
    · have hg' : env.gobusterOnPath = false := Bool.not_eq_true _ ▸ hg
      rw [mcp_run_noTool env mode target wordlist threads ea pso incl force hg',
        mcp_run_noTool env mode target wordlist threads ea pso' incl' force hg']
  · by_cases hg : env.gobusterOnPath = true
    · by_cases hinv : wordlist ≠ "-" ∧ wordlist ≠ "" ∧ env.isFile wordlist = false
      · rw [tool_run_noWordlist env mode target wordlist threads ea pso incl force hg
            hinv.1 hinv.2.1 hinv.2.2,
          tool_run_noWordlist env mode target wordlist threads ea pso' incl' force hg
            hinv.1 hinv.2.1 hinv.2.2]
      · have hv := valid_of_not_invalid env wordlist hinv
        rw [tool_run_valid env mode target wordlist threads ea pso incl force hg hv,
          tool_run_valid env mode target wordlist threads ea pso' incl' force hg hv]
        simp only [Except.map]
        have h := tool_loop_indep env.proc
          (positionalCmd mode target wordlist threads (ea.getD [])) (exhaustTagFor force)
          (attemptsFor mode target wordlist threads (ea.getD []) force)
          pso pso' (incl.getD [200, 204, 301, 302, 307, 403])
          (incl'.getD [200, 204, 301, 302, 307, 403]) 1 (1, [])
        rw [h.1, h.2]
    · have hg' : env.gobusterOnPath = false := Bool.not_eq_true _ ▸ hg
      rw [tool_run_noTool env mode target wordlist threads ea pso incl force hg',
        tool_run_noTool env mode target wordlist threads ea pso' incl' force hg']

/-- C7: for every request with the invocation preference forced to flag
style (`force_use_m_flag = True`) that passes pre-flight validation, the
returned `invocationUsed` is `"-m-flag"` and never the legacy tag
`"positional"`, and only the flag-style candidate's argument vector is ever
run — the legacy candidate is never executed. -/
theorem claim_C7 (env : Env) (mode target wordlist : String) (threads : Int)
    (ea : Option (List String)) (pso : Bool) (incl : Option (List Int))
    (hg : env.gobusterOnPath = true)
    (hv : wordlist = "-" ∨ wordlist = "" ∨ env.isFile wordlist = true) :
    ∃ lo, McpServer.run_gobuster_auto env mode target wordlist threads ea pso incl
        (some true) = Except.ok lo ∧
      lo.result.invocationUsed = "-m-flag" ∧
      lo.result.invocationUsed ≠ "positional" ∧
      lo.executed = [flagCmd mode target wordlist threads (ea.getD [])] ∧
      positionalCmd mode target wordlist threads (ea.getD []) ∉ lo.executed := by
  rw [mcp_run_valid env mode target wordlist threads ea pso incl (some true) hg hv]
  refine ⟨_, rfl, ?_⟩
  simp only [attemptsFor, exhaustTagFor]
  have htag := mcp_loop_single_flag_tag env.proc pso (incl.getD [200, 204, 301, 302, 307, 403])
    mode target wordlist threads (ea.getD []) 1 (1, [])
  have hex := (mcp_loop_single env.proc pso (incl.getD [200, 204, 301, 302, 307, 403])
    (positionalCmd mode target wordlist threads (ea.getD [])) "-m-flag" 1 (1, [])
    (flagCmd mode target wordlist threads (ea.getD []))).1
  refine ⟨htag, by rw [htag]; decide, hex, ?_⟩
  rw [hex]
  simp only [List.mem_singleton]
  exact positionalCmd_ne_flagCmd mode target wordlist threads (ea.getD [])

def envC7 : Env := ⟨true, fun _ => true, fun _ => ⟨0, "hit"⟩⟩

theorem claim_C7_witness :
    envC7.gobusterOnPath = true ∧
    (∃ lo, McpServer.run_gobuster_auto envC7 "dir" "http://x" "w.txt" 20 none false none
        (some true) = Except.ok lo ∧
      lo.result.invocationUsed = "-m-flag" ∧
      lo.result.invocationUsed ≠ "positional" ∧
      lo.executed = [flagCmd "dir" "http://x" "w.txt" 20 []] ∧
      positionalCmd "dir" "http://x" "w.txt" 20 [] ∉ lo.executed) :=
  ⟨rfl, claim_C7 envC7 "dir" "http://x" "w.txt" 20 none false none rfl
    (Or.inr (Or.inr rfl))⟩

/-- C8: the command builder is a pure argument-vector assembly: for every
request the legacy candidate is `[toolName, mode, "-u", target, "-w",
wordlist, "-t", str(threads)] ++ extraArguments` (mode as a bare positional
token right after the tool name) and the flag candidate instead emits "-m"
followed by mode; `extraArguments` is appended last, in order, in both. -/
theorem claim_C8 (mode target wordlist : String) (threads : Int) (ea : List String) :
    positionalCmd mode target wordlist threads ea =
      ["gobuster", mode, "-u", target, "-w", wordlist, "-t", toString threads] ++ ea ∧
    flagCmd mode target wordlist threads ea =
      ["gobuster", "-m", mode, "-u", target, "-w", wordlist, "-t", toString threads] ++ ea ∧
    (positionalCmd mode target wordlist threads ea)[1]? = some mode ∧
    (flagCmd mode target wordlist threads ea)[1]? = some "-m" ∧
    (flagCmd mode target wordlist threads ea)[2]? = some mode ∧
    ea <:+ positionalCmd mode target wordlist threads ea ∧
    ea <:+ flagCmd mode target wordlist threads ea :=
  ⟨rfl, rfl, rfl, rfl, rfl,
    ⟨["gobuster", mode, "-u", target, "-w", wordlist, "-t", toString threads], rfl⟩,
    ⟨["gobuster", "-m", mode, "-u", target, "-w", wordlist, "-t", toString threads], rfl⟩⟩

def envC9 : Env :=
  ⟨true, fun _ => true, fun cmd =>
    if cmd.length = 8 then ⟨1, "wordlist (-w): must be specified"⟩
    else ⟨0, "flaghit"⟩⟩

/-- C9 counterexample: the two `run_gobuster_auto` definitions are NOT
behaviourally equivalent.  With auto-detect, a legacy invocation exiting 1
with output "wordlist (-w): must be specified", and a flag invocation
exiting 0, mcp_server.py accepts the first attempt (exit 1 is a success
there) and returns tag "positional", while tool.py treats it as a
missing-argument mismatch, falls back, and returns the flag attempt with
tag "-m-flag". -/
theorem claim_C9_counterexample :
    resultOf (McpServer.run_gobuster_auto envC9 "dir" "http://t" "-" 20 none false none none) ≠
      resultOf
        (LearningsTool.run_gobuster_auto envC9 "dir" "http://t" "-" 20 none false none none) := by
  decide

/-- C9 (amended): the two `run_gobuster_auto` definitions return the same
`(exit_code, captured_lines, which_invocation_used)` for every input and
every behaviour of the external binary in which no attempted candidate (a)
exits with code 1 while printing one of the two shared missing-argument
markers, or (b) exits with a code other than 0 and 1 while printing one of
mcp_server's four extra mismatch markers but none of the two shared ones.
In general they differ: tool.py accepts only exit code 0 as success and
recognises only two mismatch markers, mcp_server.py accepts 0 and 1 and
recognises six. -/
theorem claim_C9_amended (env : Env) (mode target wordlist : String) (threads : Int)
    (ea : Option (List String)) (pso : Bool) (incl : Option (List Int)) (force : Option Bool)
    (h : ∀ cmd, (cmd = positionalCmd mode target wordlist threads (ea.getD []) ∨
        cmd = flagCmd mode target wordlist threads (ea.getD [])) →
      ((env.proc cmd).exitCode = 1 →
        markerMatch toolMarkers (pySplitlines (env.proc cmd).stdout) = false) ∧
      ((env.proc cmd).exitCode ≠ 0 → (env.proc cmd).exitCode ≠ 1 →
        markerMatch mcpMarkers (pySplitlines (env.proc cmd).stdout) = true →
        markerMatch toolMarkers (pySplitlines (env.proc cmd).stdout) = true)) :
    (McpServer.run_gobuster_auto env mode target wordlist threads ea pso incl force).map
        (fun lo => lo.result) =
      (LearningsTool.run_gobuster_auto env mode target wordlist threads ea pso incl force).map
        (fun lo => lo.result) := by
  by_cases hg : env.gobusterOnPath = true
  · by_cases hinv : wordlist ≠ "-" ∧ wordlist ≠ "" ∧ env.isFile wordlist = false
    · rw [mcp_run_noWordlist env mode target wordlist threads ea pso incl force hg
          hinv.1 hinv.2.1 hinv.2.2,
        tool_run_noWordlist env mode target wordlist threads ea pso incl force hg
          hinv.1 hinv.2.1 hinv.2.2]
    · have hv := valid_of_not_invalid env wordlist hinv
      rw [mcp_run_valid env mode target wordlist threads ea pso incl force hg hv,
        tool_run_valid env mode target wordlist threads ea pso incl force hg hv]
      simp only [Except.map]
      have hcond : ∀ cmd ∈ attemptsFor mode target wordlist threads (ea.getD []) force,
          ((env.proc cmd).exitCode = 1 →
            markerMatch toolMarkers (pySplitlines (env.proc cmd).stdout) = false) ∧
          ((env.proc cmd).exitCode ≠ 0 → (env.proc cmd).exitCode ≠ 1 →
            markerMatch mcpMarkers (pySplitlines (env.proc cmd).stdout) = true →
            markerMatch toolMarkers (pySplitlines (env.proc cmd).stdout) = true) := by
        intro cmd hcmd
        refine h cmd ?_
        rcases force with _ | b
        · simp only [attemptsFor, List.mem_cons, List.mem_singleton,
            List.not_mem_nil, or_false] at hcmd
          exact hcmd
        · cases b <;>
            (simp only [attemptsFor, List.mem_singleton] at hcmd
             simp [hcmd])
      rw [loops_agree env.proc (positionalCmd mode target wordlist threads (ea.getD []))
        (exhaustTagFor force) pso pso (incl.getD [200, 204, 301, 302, 307, 403])
        (incl.getD [200, 204, 301, 302, 307, 403])
        (attemptsFor mode target wordlist threads (ea.getD []) force) 1 1 (1, []) hcond]
  · have hg' : env.gobusterOnPath = false := Bool.not_eq_true _ ▸ hg
    rw [mcp_run_noTool env mode target wordlist threads ea pso incl force hg',
      tool_run_noTool env mode target wordlist threads ea pso incl force hg']

def envC9w : Env := ⟨true, fun _ => true, fun _ => ⟨0, "hit"⟩⟩

theorem claim_C9_amended_witness :
    (∀ cmd, (cmd = positionalCmd "dir" "http://t" "w" 20 [] ∨
        cmd = flagCmd "dir" "http://t" "w" 20 []) →
      ((envC9w.proc cmd).exitCode = 1 →
        markerMatch toolMarkers (pySplitlines (envC9w.proc cmd).stdout) = false) ∧
      ((envC9w.proc cmd).exitCode ≠ 0 → (envC9w.proc cmd).exitCode ≠ 1 →
        markerMatch mcpMarkers (pySplitlines (envC9w.proc cmd).stdout) = true →
        markerMatch toolMarkers (pySplitlines (envC9w.proc cmd).stdout) = true)) ∧
    (McpServer.run_gobuster_auto envC9w "dir" "http://t" "w" 20 none false none none).map
        (fun lo => lo.result) =
      (LearningsTool.run_gobuster_auto envC9w "dir" "http://t" "w" 20 none false none none).map
        (fun lo => lo.result) := by
  have hc : ∀ cmd, (cmd = positionalCmd "dir" "http://t" "w" 20 [] ∨
      cmd = flagCmd "dir" "http://t" "w" 20 []) →
      ((envC9w.proc cmd).exitCode = 1 →
        markerMatch toolMarkers (pySplitlines (envC9w.proc cmd).stdout) = false) ∧
      ((envC9w.proc cmd).exitCode ≠ 0 → (envC9w.proc cmd).exitCode ≠ 1 →
        markerMatch mcpMarkers (pySplitlines (envC9w.proc cmd).stdout) = true →
        markerMatch toolMarkers (pySplitlines (envC9w.proc cmd).stdout) = true) :=
    fun cmd _ => ⟨fun h1 => by simp [envC9w] at h1, fun h0 _ _ => absurd rfl h0⟩
  exact ⟨hc, claim_C9_amended envC9w "dir" "http://t" "w" 20 none false none none hc⟩

/-- C10: for every call where the wordlist is the empty string, the
wordlist-existence validation is skipped entirely (even when no file exists
at any path), so no WordlistNotFound error is raised and the empty string is
passed through unchanged into the spawned command's argument vector, right
after "-w". -/
theorem claim_C10 (env : Env) (mode target : String) (threads : Int)
    (ea : Option (List String)) (pso : Bool) (incl : Option (List Int))
    (hg : env.gobusterOnPath = true) :
    ∃ lo, McpServer.run_gobuster_auto env mode target "" threads ea pso incl none =
        Except.ok lo ∧
      lo.executed.head? =
        some (["gobuster", mode, "-u", target, "-w", "", "-t", toString threads] ++ ea.getD []) ∧
      ∀ w, McpServer.run_gobuster_auto env mode target "" threads ea pso incl none ≠
        Except.error (FatalError.wordlistNotFound w) := by
  rw [mcp_run_valid env mode target "" threads ea pso incl none hg (Or.inr (Or.inl rfl))]
  refine ⟨_, rfl, ?_, ?_⟩
  · simp only [attemptsFor]
    exact mcp_loop_head_executed env.proc pso (incl.getD [200, 204, 301, 302, 307, 403])
      (positionalCmd mode target "" threads (ea.getD [])) (exhaustTagFor none) 1 (1, [])
      (positionalCmd mode target "" threads (ea.getD []))
      [flagCmd mode target "" threads (ea.getD [])]
  · intro w
    simp

def envC10 : Env := ⟨true, fun _ => false, fun _ => ⟨0, "ok"⟩⟩

theorem claim_C10_witness :
    envC10.gobusterOnPath = true ∧ envC10.isFile "" = false ∧
    (∃ lo, McpServer.run_gobuster_auto envC10 "dir" "http://t" "" 20 none false none none =
        Except.ok lo ∧
      lo.executed.head? =
        some (["gobuster", "dir", "-u", "http://t", "-w", "", "-t", toString (20 : Int)] ++ []) ∧
      ∀ w, McpServer.run_gobuster_auto envC10 "dir" "http://t" "" 20 none false none none ≠
        Except.error (FatalError.wordlistNotFound w)) :=
  ⟨rfl, rfl, claim_C10 envC10 "dir" "http://t" 20 none false none rfl⟩

end NetworkAgent
